import Mathlib

/-!
Verification of the webhook event-notification core of the repository
(`app/services/webhook_service.py`) against its natural-language
specification.  The Python service is shallowly embedded: payloads are a
JSON value type, `json.dumps(payload, sort_keys=True)` is the canonical
serializer, HMAC-SHA256 is implemented over byte lists (`List Nat`, each
byte reduced mod 256, words mod 2^32), the subscription store is a list
of records, and network attempts are oracles `Nat → Except String Nat`
(an `Except.error` stands for a transport error / timeout / exception
raised by `httpx`, an `Except.ok s` for a completed HTTP response with
status code `s`).
-/

namespace Persimmon

/-! ## JSON values and `json.dumps(payload, sort_keys=True)` -/

/-- JSON values, the type of webhook payloads (`Dict` in the source). -/
inductive Json where
  | null : Json
  | bool : Bool → Json
  | num : Int → Json
  | str : String → Json
  | arr : List Json → Json
  | obj : List (String × Json) → Json

/-- Lower-case hexadecimal digits. -/
def hexChars : List Char := "0123456789abcdef".data

/-- Four-digit lower-case hex rendering, as used by `\uXXXX` escapes. -/
def hex4 (n : Nat) : String :=
  String.mk [hexChars.getD (n / 4096 % 16) '0', hexChars.getD (n / 256 % 16) '0',
    hexChars.getD (n / 16 % 16) '0', hexChars.getD (n % 16) '0']

/-- Escape one character the way `json.dumps` (default `ensure_ascii=True`)
renders characters inside a JSON string. -/
def escapeJsonChar (c : Char) : String :=
  if c = '"' then "\\\""
  else if c = '\\' then "\\\\"
  else if c = '\n' then "\\n"
  else if c = '\r' then "\\r"
  else if c = '\t' then "\\t"
  else if c.toNat = 8 then "\\b"
  else if c.toNat = 12 then "\\f"
  else if c.toNat < 32 then "\\u" ++ hex4 c.toNat
  else if c.toNat < 127 then String.mk [c]
  else if c.toNat < 65536 then "\\u" ++ hex4 c.toNat
  else
    let v := c.toNat - 65536
    "\\u" ++ hex4 (55296 + v / 1024) ++ "\\u" ++ hex4 (56320 + v % 1024)

/-- JSON string literal rendering: quotes around the escaped characters. -/
def encodeJsonString (s : String) : String :=
  "\"" ++ String.join (s.data.map escapeJsonChar) ++ "\""

/-- Sort the (key, rendered-value) entries of an object by key, the effect
of `sort_keys=True` in `json.dumps`. -/
def sortEntries (l : List (String × String)) : List (String × String) :=
  l.mergeSort (fun a b => decide (a.1 ≤ b.1))

/-- Render one already-serialized object entry, with the default
`": "` key separator of `json.dumps`. -/
def renderEntry (kv : String × String) : String :=
  encodeJsonString kv.1 ++ ": " ++ kv.2

mutual

/-- `json.dumps(v, sort_keys=True)` with the default separators
`", "` and `": "`: canonical serialization used for signing. -/
def dumps : Json → String
  | Json.null => "null"
  | Json.bool b => cond b "true" "false"
  | Json.num n => toString n
  | Json.str s => encodeJsonString s
  | Json.arr xs => "[" ++ String.intercalate ", " (dumpsList xs) ++ "]"
  | Json.obj kvs =>
      "\x7b" ++ String.intercalate ", "
        (List.map renderEntry (sortEntries (dumpsEntries kvs))) ++ "\x7d"

/-- Serialize the elements of a JSON array. -/
def dumpsList : List Json → List String
  | [] => []
  | x :: xs => dumps x :: dumpsList xs

/-- Serialize the values of the entries of a JSON object, keeping keys. -/
def dumpsEntries : List (String × Json) → List (String × String)
  | [] => []
  | (k, v) :: kvs => (k, dumps v) :: dumpsEntries kvs

end

/-! ## UTF-8 encoding (`str.encode("utf-8")`) -/

/-- UTF-8 encoding of a single code point. -/
def utf8Char (c : Char) : List Nat :=
  let n := c.toNat
  if n < 128 then [n]
  else if n < 2048 then [192 + n / 64, 128 + n % 64]
  else if n < 65536 then [224 + n / 4096, 128 + n / 64 % 64, 128 + n % 64]
  else [240 + n / 262144, 128 + n / 4096 % 64, 128 + n / 64 % 64, 128 + n % 64]

/-- `s.encode("utf-8")` as a list of bytes. -/
def utf8Encode (s : String) : List Nat :=
  (s.data.map utf8Char).flatten

/-! ## SHA-256 (`hashlib.sha256`) -/

/-- Modulus for 32-bit words. -/
def wordMod : Nat := 4294967296

/-- Right rotation of a 32-bit word by `n` bits. -/
def rotr (n x : Nat) : Nat := ((x >>> n) ||| (x <<< (32 - n))) % wordMod

/-- SHA-256 choice function. -/
def shaCh (x y z : Nat) : Nat := (x &&& y) ^^^ ((x ^^^ 4294967295) &&& z)

/-- SHA-256 majority function. -/
def shaMaj (x y z : Nat) : Nat := (x &&& y) ^^^ (x &&& z) ^^^ (y &&& z)

/-- SHA-256 big Sigma0. -/
def bigSigma0 (x : Nat) : Nat := rotr 2 x ^^^ rotr 13 x ^^^ rotr 22 x

/-- SHA-256 big Sigma1. -/
def bigSigma1 (x : Nat) : Nat := rotr 6 x ^^^ rotr 11 x ^^^ rotr 25 x

/-- SHA-256 small sigma0. -/
def smallSigma0 (x : Nat) : Nat := rotr 7 x ^^^ rotr 18 x ^^^ (x >>> 3)

/-- SHA-256 small sigma1. -/
def smallSigma1 (x : Nat) : Nat := rotr 17 x ^^^ rotr 19 x ^^^ (x >>> 10)

/-- The 64 SHA-256 round constants (decimal rendering of the standard
table). -/
def shaK : List Nat :=
  [1116352408, 1899447441, 3049323471, 3921009573, 961987163, 1508970993,
   2453635748, 2870763221, 3624381080, 310598401, 607225278, 1426881987,
   1925078388, 2162078206, 2614888103, 3248222580, 3835390401, 4022224774,
   264347078, 604807628, 770255983, 1249150122, 1555081692, 1996064986,
   2554220882, 2821834349, 2952996808, 3210313671, 3336571891, 3584528711,
   113926993, 338241895, 666307205, 773529912, 1294757372, 1396182291,
   1695183700, 1986661051, 2177026350, 2456956037, 2730485921, 2820302411,
   3259730800, 3345764771, 3516065817, 3600352804, 4094571909, 275423344,
   430227734, 506948616, 659060556, 883997877, 958139571, 1322822218,
   1537002063, 1747873779, 1955562222, 2024104815, 2227730452, 2361852424,
   2428436474, 2756734187, 3204031479, 3329325298]

/-- The initial SHA-256 hash state (decimal rendering of the standard
values). -/
def shaH0 : List Nat :=
  [1779033703, 3144134277, 1013904242, 2773480762,
   1359893119, 2600822924, 528734635, 1541459225]

/-- Split a byte list into 64-byte blocks. -/
def chunks64 : List Nat → List (List Nat)
  | [] => []
  | x :: xs => ((x :: xs).take 64) :: chunks64 ((x :: xs).drop 64)
termination_by l => l.length
decreasing_by simp [List.length_drop]; omega

/-- Split a byte list into 4-byte groups. -/
def chunks4 : List Nat → List (List Nat)
  | [] => []
  | x :: xs => ((x :: xs).take 4) :: chunks4 ((x :: xs).drop 4)
termination_by l => l.length
decreasing_by simp [List.length_drop]; omega

/-- Big-endian 32-bit word from bytes. -/
def bytesToWordBE (bs : List Nat) : Nat := bs.foldl (fun acc b => acc * 256 + b) 0

/-- Big-endian bytes of a 32-bit word. -/
def wordToBytesBE (w : Nat) : List Nat :=
  [w / 16777216 % 256, w / 65536 % 256, w / 256 % 256, w % 256]

/-- Extend the 16-word message schedule to 64 words. -/
def extendW (w : Array Nat) (i : Nat) : Array Nat :=
  if h : i < 64 then
    let v := (w.getD (i - 16) 0 + smallSigma0 (w.getD (i - 15) 0) + w.getD (i - 7) 0 +
      smallSigma1 (w.getD (i - 2) 0)) % wordMod
    extendW (w.push v) (i + 1)
  else w
termination_by 64 - i
decreasing_by omega

/-- One SHA-256 compression round on the state `[a, b, c, d, e, f, g, h]`. -/
def roundStep (k w : Nat) (s : List Nat) : List Nat :=
  let a := s.getD 0 0
  let b := s.getD 1 0
  let c := s.getD 2 0
  let d := s.getD 3 0
  let e := s.getD 4 0
  let f := s.getD 5 0
  let g := s.getD 6 0
  let hh := s.getD 7 0
  let t1 := (hh + bigSigma1 e + shaCh e f g + k + w) % wordMod
  let t2 := (bigSigma0 a + shaMaj a b c) % wordMod
  [(t1 + t2) % wordMod, a, b, c, (d + t1) % wordMod, e, f, g]

/-- Compress one 64-byte block into the running hash state. -/
def shaCompress (hs : List Nat) (block : List Nat) : List Nat :=
  let ws := (chunks4 block).map bytesToWordBE
  let w := extendW ws.toArray 16
  let final := (List.range 64).foldl (fun s i => roundStep (shaK.getD i 0) (w.getD i 0) s) hs
  List.zipWith (fun x y => (x + y) % wordMod) hs final

/-- SHA-256 padding appended after the `0x80` byte: zeros up to 56 mod 64,
then the 8-byte big-endian bit length of the message. -/
def shaPadding (len : Nat) : List Nat :=
  List.replicate ((64 + 55 - len % 64) % 64) 0 ++
    (List.range 8).map (fun i => ((8 * len) >>> (8 * (7 - i))) % 256)

/-- SHA-256 digest of a byte list, as 32 bytes. -/
def sha256 (msg : List Nat) : List Nat :=
  let padded := msg ++ 128 :: shaPadding msg.length
  let final := (chunks64 padded).foldl shaCompress shaH0
  (final.map wordToBytesBE).flatten

/-! ## HMAC-SHA256 (`hmac.new(secret, msg, hashlib.sha256)`) -/

/-- HMAC-SHA256 block size in bytes. -/
def hmacBlockSize : Nat := 64

/-- HMAC key preprocessing: hash keys longer than the block size, then
zero-pad to the block size. -/
def hmacPrepKey (key : List Nat) : List Nat :=
  let k := if hmacBlockSize < key.length then sha256 key else key
  k ++ List.replicate (hmacBlockSize - k.length) 0

/-- HMAC-SHA256 of a message under a key, as 32 bytes. -/
def hmacSha256 (key msg : List Nat) : List Nat :=
  let k := hmacPrepKey key
  let ipadded := k.map (fun b => b ^^^ 54)
  let opadded := k.map (fun b => b ^^^ 92)
  sha256 (opadded ++ sha256 (ipadded ++ msg))

/-- Lower-case hex rendering of a byte list (`.hexdigest()`). -/
def hexOfBytes (bs : List Nat) : String :=
  String.join (bs.map (fun b => String.mk [hexChars.getD (b / 16 % 16) '0', hexChars.getD (b % 16) '0']))

/-! ## Signature generation and verification
(`WebhookService._generate_signature`, `WebhookService.verify_signature`) -/

/-- `WebhookService._generate_signature`: HMAC-SHA256 of
`json.dumps(payload, sort_keys=True)` keyed by the UTF-8 secret, rendered
as a token beginning with `sha256=` followed by the lower-case hex digest. -/
def generateSignature (payload : Json) (secret : String) : String :=
  "sha256=" ++ hexOfBytes (hmacSha256 (utf8Encode secret) (utf8Encode (dumps payload)))

/-- `hmac.compare_digest` on two ASCII strings: a constant-time comparison
whose result is equality. -/
def compareDigest (a b : String) : Bool := a == b

/-- `WebhookService.verify_signature`: recompute the expected token from
the payload and secret and compare with `hmac.compare_digest`. -/
def verifySignature (payload : Json) (signature secret : String) : Bool :=
  compareDigest signature
    ("sha256=" ++ hexOfBytes (hmacSha256 (utf8Encode secret) (utf8Encode (dumps payload))))

/-! ## Subscription records and the store
(`webhooks` table rows; the store is the list of rows) -/

/-- One row of the `webhooks` table, as created and read by the service. -/
structure Webhook where
  id : String
  user_id : String
  url : String
  events : List String
  secret : Option String
  is_active : Bool
deriving DecidableEq, Repr

/-- `webhook.get("secret") or settings.WEBHOOK_SECRET`: Python `or`
falls through to the default on `None` and on the empty string. -/
def secretOrDefault (secret : Option String) (dflt : String) : String :=
  match secret with
  | some s => if s = "" then dflt else s
  | none => dflt

/-- `WebhookService.register_webhook`: insert a new row built with
`is_active: True`; the store assigns the fresh id `newId`.  Returns the
updated store and the created row. -/
def registerWebhook (store : List Webhook) (newId uid url : String)
    (events : List String) (secret : Option String) : List Webhook × Webhook :=
  let w : Webhook :=
    { id := newId, user_id := uid, url := url, events := events,
      secret := secret, is_active := true }
  (store ++ [w], w)

/-- `WebhookService.get_user_webhooks`: all rows of the caller. -/
def getUserWebhooks (store : List Webhook) (uid : String) : List Webhook :=
  store.filter (fun w => w.user_id == uid)

/-- `WebhookService.delete_webhook`: delete scoped by
`.eq("id", webhook_id).eq("user_id", user_id)`; returns the remaining
store and `True` exactly when the delete result data is non-empty. -/
def deleteWebhook (store : List Webhook) (uid wid : String) : List Webhook × Bool :=
  let deleted := store.filter (fun w => w.id == wid && w.user_id == uid)
  let remaining := store.filter (fun w => !(w.id == wid && w.user_id == uid))
  (remaining, !deleted.isEmpty)

/-- `WebhookService._get_webhooks_for_event`: rows of the caller that are
active and whose `events` array contains the fired event. -/
def webhooksForEvent (store : List Webhook) (uid ev : String) : List Webhook :=
  store.filter (fun w => w.user_id == uid && w.is_active && w.events.contains ev)

/-! ## Delivery (`WebhookService._deliver_webhook`, `trigger_webhook`,
`test_webhook`)

A network attempt is an oracle value `Except String Nat`: `Except.ok s`
is a completed HTTP response with status code `s` (any status, 4xx/5xx
included), `Except.error e` is an exception raised by the HTTP client
(transport error or timeout), caught by the `except` clause. -/

/-- `self.timeout` from `WebhookService.__init__`. -/
def timeoutSeconds : Nat := 5

/-- `self.max_retries` from `WebhookService.__init__`. -/
def maxRetries : Nat := 3

/-- `self.retry_delays` from `WebhookService.__init__`. -/
def retryDelays : List Nat := [1, 3, 5]

/-- The headers sent with every delivery. -/
def webhookHeaders (sig event : String) : List (String × String) :=
  [("Content-Type", "application/json"), ("X-Webhook-Signature", sig),
   ("X-Webhook-Event", event)]

/-- One outbound POST request: destination, serialized payload, headers. -/
structure Request where
  url : String
  body : String
  headers : List (String × String)
deriving DecidableEq, Repr

/-- Observable outcome of one `_deliver_webhook` retry loop: how many
attempts ran, which `asyncio.sleep` delays were taken (in order), and
whether a response with status `< 300` was obtained. -/
structure DeliveryTrace where
  attemptsMade : Nat
  sleeps : List Nat
  delivered : Bool
deriving DecidableEq, Repr

/-- Does an attempt outcome fail (status `>= 300`, or an exception)? -/
def attemptFailed : Except String Nat → Bool
  | Except.ok status => decide (300 ≤ status)
  | Except.error _ => true

/-- The backoff step at the bottom of the loop body: sleep
`retry_delays[attempt]` except after the last attempt. -/
def nextSleeps (attempt : Nat) (sleeps : List Nat) : List Nat :=
  if attempt < maxRetries - 1 then sleeps ++ [retryDelays.getD attempt 0] else sleeps

/-- The `for attempt in range(self.max_retries)` loop of
`_deliver_webhook`: `remaining` counts the iterations left
(`remaining = maxRetries - attempt`).  A response with status `< 300`
returns immediately; any other outcome falls through to the backoff and
the next iteration; exhaustion only logs and yields a terminal trace. -/
def deliverGoAux (oracle : Nat → Except String Nat) :
    Nat → Nat → List Nat → DeliveryTrace
  | 0, attempt, sleeps => { attemptsMade := attempt, sleeps := sleeps, delivered := false }
  | remaining + 1, attempt, sleeps =>
    match oracle attempt with
    | Except.ok status =>
      if status < 300 then
        { attemptsMade := attempt + 1, sleeps := sleeps, delivered := true }
      else deliverGoAux oracle remaining (attempt + 1) (nextSleeps attempt sleeps)
    | Except.error _ => deliverGoAux oracle remaining (attempt + 1) (nextSleeps attempt sleeps)

/-- `WebhookService._deliver_webhook` for one subscription, with the
per-attempt network outcomes supplied by `oracle`. -/
def deliverWebhook (oracle : Nat → Except String Nat) : DeliveryTrace :=
  deliverGoAux oracle maxRetries 0 []

/-- The payload built by `trigger_webhook` (timestamp is wall-clock
input). -/
def triggerPayload (uid ev timestamp : String) (data : Json) : Json :=
  Json.obj [("event", Json.str ev), ("timestamp", Json.str timestamp),
    ("data", data), ("user_id", Json.str uid)]

/-- `WebhookService.trigger_webhook` (fire path): resolve the matching
subscriptions and run one independent retry loop per subscription;
returns the per-subscription traces for observation (the Python function
returns `None`). -/
def triggerWebhook (store : List Webhook) (uid ev : String)
    (oracles : Webhook → Nat → Except String Nat) : List (String × DeliveryTrace) :=
  let whs := webhooksForEvent store uid ev
  if whs.isEmpty then []
  else whs.map (fun w => (w.id, deliverWebhook (oracles w)))

/-- `asyncio.gather(*tasks, return_exceptions=True)`: exceptions of the
gathered tasks are returned as values, never re-raised. -/
def gatherReturnExceptions (results : List (Except String DeliveryTrace)) :
    List (Except String DeliveryTrace) := results

/-- The fire path with its exception channel explicit: each
subscription's task may end in an exception (`Except.error`), and the
gather swallows it; the result of `trigger_webhook` itself is in
`Except` to show what could propagate to its caller. -/
def triggerWebhookRun (store : List Webhook) (uid ev : String)
    (tasks : Webhook → Except String DeliveryTrace) :
    Except String (List (Except String DeliveryTrace)) :=
  let whs := webhooksForEvent store uid ev
  if whs.isEmpty then Except.ok []
  else Except.ok (gatherReturnExceptions (whs.map tasks))

/-- The result dict of `test_webhook`. -/
structure TestResult where
  success : Bool
  status_code : Option Nat
  response_time_ms : Nat
  error : Option String
deriving DecidableEq, Repr

/-- The fixed `webhook.test` payload built by `test_webhook`. -/
def testPayload (uid timestamp : String) : Json :=
  Json.obj [("event", Json.str "webhook.test"), ("timestamp", Json.str timestamp),
    ("data", Json.obj [("message", Json.str "This is a test webhook delivery")]),
    ("user_id", Json.str uid)]

/-- `WebhookService.test_webhook`: resolve one subscription scoped by
`(id, user_id)` (`WebhookError` if absent), build the fixed test
payload, sign it, perform one POST, and return the result dict together
with the list of requests issued (for the single-attempt property).  An
`Except.ok` outcome of the attempt — any HTTP status — yields
`success: True` with the status code; an exception yields
`success: False` with the error message. -/
def testWebhook (store : List Webhook) (uid wid defaultSecret timestamp : String)
    (attempt : Request → Except String Nat) (elapsedMs : Nat) :
    Except String (TestResult × List Request) :=
  match store.find? (fun w => w.id == wid && w.user_id == uid) with
  | none => Except.error "Webhook not found"
  | some w =>
    let payload := testPayload uid timestamp
    let sig := generateSignature payload (secretOrDefault w.secret defaultSecret)
    let req : Request := ⟨w.url, dumps payload, webhookHeaders sig "webhook.test"⟩
    match attempt req with
    | Except.ok status =>
      Except.ok ({ success := true, status_code := some status,
                   response_time_ms := elapsedMs, error := none }, [req])
    | Except.error e =>
      Except.ok ({ success := false, status_code := none,
                   response_time_ms := elapsedMs, error := some e }, [req])

/-! ## Helper lemmas -/

/-- One failed iteration of the retry loop (status `>= 300` or exception)
falls through to the backoff and the next iteration. -/
theorem deliverGoAux_step_fail (oracle : Nat → Except String Nat) (remaining attempt : Nat)
    (sleeps : List Nat) (h : attemptFailed (oracle attempt) = true) :
    deliverGoAux oracle (remaining + 1) attempt sleeps =
      deliverGoAux oracle remaining (attempt + 1) (nextSleeps attempt sleeps) := by
  cases ho : oracle attempt with
  | ok s =>
    have hs : ¬ s < 300 := by simp [attemptFailed, ho] at h; omega
    simp [deliverGoAux, ho, hs]
  | error e => simp [deliverGoAux, ho]

/-- An iteration whose response has status `< 300` returns at once. -/
theorem deliverGoAux_step_ok (oracle : Nat → Except String Nat) (remaining attempt : Nat)
    (sleeps : List Nat) (s : Nat) (ho : oracle attempt = Except.ok s) (hs : s < 300) :
    deliverGoAux oracle (remaining + 1) attempt sleeps =
      { attemptsMade := attempt + 1, sleeps := sleeps, delivered := true } := by
  simp [deliverGoAux, ho, hs]

/-- The retry loop never runs more iterations than it has fuel. -/
theorem deliverGoAux_attempts_le (oracle : Nat → Except String Nat) (remaining : Nat) :
    ∀ attempt sleeps,
      (deliverGoAux oracle remaining attempt sleeps).attemptsMade ≤ attempt + remaining := by
  induction remaining with
  | zero => intro a s; simp [deliverGoAux]
  | succ n ih =>
    intro a s
    cases ho : oracle a with
    | ok st =>
      by_cases hst : st < 300
      · simp [deliverGoAux, ho, hst]
      · simp only [deliverGoAux, ho, if_neg hst]
        calc (deliverGoAux oracle n (a + 1) (nextSleeps a s)).attemptsMade
            ≤ (a + 1) + n := ih (a + 1) (nextSleeps a s)
          _ ≤ a + (n + 1) := by omega
    | error e =>
      simp only [deliverGoAux, ho]
      calc (deliverGoAux oracle n (a + 1) (nextSleeps a s)).attemptsMade
          ≤ (a + 1) + n := ih (a + 1) (nextSleeps a s)
        _ ≤ a + (n + 1) := by omega

/-- HMAC-SHA256 depends on its key only through the preprocessed
(hashed-if-long, zero-padded) key. -/
theorem hmac_prep_congr (m k1 k2 : List Nat) (h : hmacPrepKey k1 = hmacPrepKey k2) :
    hmacSha256 k1 m = hmacSha256 k2 m := by
  simp [hmacSha256, h]

/-- `dumpsEntries` is a map over the entries. -/
theorem dumpsEntries_eq_map (kvs : List (String × Json)) :
    dumpsEntries kvs = kvs.map (fun kv => (kv.1, dumps kv.2)) := by
  induction kvs with
  | nil => simp [dumpsEntries]
  | cons kv tl ih => cases kv; simp [dumpsEntries, ih]

/-- Sorting by key is invariant under permutation of the entries when the
keys are pairwise distinct. -/
theorem sortEntries_eq_of_perm (l1 l2 : List (String × String))
    (hp : l1.Perm l2) (hnd : (l1.map Prod.fst).Nodup) :
    sortEntries l1 = sortEntries l2 := by
  have htrans : ∀ a b c : String × String,
      (fun a b : String × String => decide (a.1 ≤ b.1)) a b →
      (fun a b : String × String => decide (a.1 ≤ b.1)) b c →
      (fun a b : String × String => decide (a.1 ≤ b.1)) a c := by
    intro a b c hab hbc
    simp only [decide_eq_true_eq] at *
    exact le_trans hab hbc
  have htotal : ∀ a b : String × String,
      ((fun a b : String × String => decide (a.1 ≤ b.1)) a b ||
       (fun a b : String × String => decide (a.1 ≤ b.1)) b a) := by
    intro a b
    simp only [Bool.or_eq_true, decide_eq_true_eq]
    exact le_total a.1 b.1
  have hs1 := List.sorted_mergeSort htrans htotal l1
  have hs2 := List.sorted_mergeSort htrans htotal l2
  have hperm1 : List.Perm (sortEntries l1) l1 := List.mergeSort_perm l1 _
  have hperm2 : List.Perm (sortEntries l2) l2 := List.mergeSort_perm l2 _
  have hp12 : List.Perm (sortEntries l1) (sortEntries l2) :=
    hperm1.trans (hp.trans hperm2.symm)
  have hnd1 : ((sortEntries l1).map Prod.fst).Nodup :=
    ((hperm1.map Prod.fst).nodup_iff).mpr hnd
  have hnd2 : ((sortEntries l2).map Prod.fst).Nodup :=
    ((hp12.map Prod.fst).nodup_iff).mp hnd1
  have hlt1 : (sortEntries l1).Pairwise (fun a b : String × String => a.1 < b.1) := by
    have hne := (List.pairwise_map.mp hnd1)
    have hle : (sortEntries l1).Pairwise (fun a b : String × String => a.1 ≤ b.1) :=
      hs1.imp (by intro a b h; simpa using h)
    exact (hle.and hne).imp (fun h => lt_of_le_of_ne h.1 h.2)
  have hlt2 : (sortEntries l2).Pairwise (fun a b : String × String => a.1 < b.1) := by
    have hne := (List.pairwise_map.mp hnd2)
    have hle : (sortEntries l2).Pairwise (fun a b : String × String => a.1 ≤ b.1) :=
      hs2.imp (by intro a b h; simpa using h)
    exact (hle.and hne).imp (fun h => lt_of_le_of_ne h.1 h.2)
  haveI : IsAntisymm (String × String) (fun a b : String × String => a.1 < b.1) :=
    ⟨fun a b h1 h2 => absurd h2 (lt_asymm h1)⟩
  exact List.eq_of_perm_of_sorted hp12 hlt1 hlt2

/-! ## Concrete records used by counterexamples and witnesses -/

/-- A subscription of owner `u1` for `resource.created`, no secret. -/
def demoWebhook : Webhook :=
  { id := "w1", user_id := "u1", url := "https://endpoint.example/hook",
    events := ["resource.created"], secret := none, is_active := true }

/-- A one-subscription store owned by `u1`. -/
def demoStore : List Webhook := [demoWebhook]

/-- A store holding a single subscription of a different owner `ownerB`. -/
def foreignStore : List Webhook :=
  [{ id := "w9", user_id := "ownerB", url := "https://b.example/h",
     events := ["resource.created"], secret := none, is_active := true }]

/-- An endpoint that always answers HTTP 500. -/
def alwaysFail500 : Nat → Except String Nat := fun _ => Except.ok 500

/-- An endpoint that answers 500 on attempt 1 and 200 on attempt 2. -/
def succeedOnSecond : Nat → Except String Nat :=
  fun k => if k = 1 then Except.ok 200 else Except.ok 500

/-- A small payload used by the wrong-key counterexample. -/
def cexPayload : Json := Json.obj [("event", Json.str "x")]

/-- Object entries in one insertion order. -/
def c6Left : List (String × Json) := [("a", Json.num 1), ("b", Json.str "v")]

/-- The same object entries in the other insertion order. -/
def c6Right : List (String × Json) := [("b", Json.str "v"), ("a", Json.num 1)]

/-! ## Claims -/

/-- C1 (counterexample): the claim says `success` is true iff the HTTP
status is `< 300`, but `test_webhook` wraps the whole attempt in
`try/except` and returns `success: True` for any completed HTTP
response: an endpoint answering 500 yields `success: True` with
`status_code: 500` after exactly one attempt, even though `500 < 300`
fails. -/
theorem test_webhook_success_despite_500 :
    (testWebhook demoStore "u1" "w1" "dflt" "ts" (fun _ => Except.ok 500) 12).map
        (fun p => (p.1, p.2.length)) =
      Except.ok ({ success := true, status_code := some 500,
                   response_time_ms := 12, error := none }, 1) ∧
    ¬ (500 < 300) :=
  ⟨rfl, by decide⟩

/-- C1 (amended): for every owner and subscription id that resolves to an
owned subscription, `test_webhook` performs exactly one signed delivery
attempt (no retry) and returns a result whose `success` field is true if
and only if the attempt completed with an HTTP response (of any status,
4xx/5xx included, whose code is then reported); a transport error or
exception yields `success: False` with the error message; an id that is
absent or owned by someone else raises the 404-equivalent
`WebhookError("Webhook not found")`. -/
theorem test_webhook_single_attempt_success_iff_http_response
    (store : List Webhook) (uid wid dflt ts : String)
    (attempt : Request → Except String Nat) (elapsed : Nat) :
    ((∃ w ∈ store, w.id = wid ∧ w.user_id = uid) →
      ∃ r req, testWebhook store uid wid dflt ts attempt elapsed = Except.ok (r, [req]) ∧
        (r.success = true ↔ (attempt req).isOk = true) ∧
        (∀ s, attempt req = Except.ok s → r.status_code = some s) ∧
        (∀ e, attempt req = Except.error e → r.error = some e)) ∧
    ((∀ w ∈ store, ¬(w.id = wid ∧ w.user_id = uid)) →
      testWebhook store uid wid dflt ts attempt elapsed = Except.error "Webhook not found") := by
  constructor
  · rintro ⟨w, hw, hid, huid⟩
    cases hf : store.find? (fun w => w.id == wid && w.user_id == uid) with
    | none =>
      exfalso
      have hnone := List.find?_eq_none.mp hf w hw
      simp [hid, huid] at hnone
    | some w' =>
      cases ha : attempt ⟨w'.url, dumps (testPayload uid ts),
          webhookHeaders (generateSignature (testPayload uid ts)
            (secretOrDefault w'.secret dflt)) "webhook.test"⟩ with
      | ok s =>
        refine ⟨{ success := true, status_code := some s,
                  response_time_ms := elapsed, error := none },
          ⟨w'.url, dumps (testPayload uid ts),
            webhookHeaders (generateSignature (testPayload uid ts)
              (secretOrDefault w'.secret dflt)) "webhook.test"⟩, ?_, ?_, ?_, ?_⟩
        · simp only [testWebhook, hf]
          rw [ha]
        · rw [ha]; simp [Except.isOk, Except.toBool]
        · intro s' hs'; rw [ha] at hs'; cases hs'; rfl
        · intro e he; rw [ha] at he; cases he
      | error e =>
        refine ⟨{ success := false, status_code := none,
                  response_time_ms := elapsed, error := some e },
          ⟨w'.url, dumps (testPayload uid ts),
            webhookHeaders (generateSignature (testPayload uid ts)
              (secretOrDefault w'.secret dflt)) "webhook.test"⟩, ?_, ?_, ?_, ?_⟩
        · simp only [testWebhook, hf]
          rw [ha]
        · rw [ha]; simp [Except.isOk, Except.toBool]
        · intro s' hs'; rw [ha] at hs'; cases hs'
        · intro e' he; rw [ha] at he; cases he; rfl
  · intro hnone
    have hf : store.find? (fun w => w.id == wid && w.user_id == uid) = none := by
      apply List.find?_eq_none.mpr
      intro w hw
      simpa using hnone w hw
    simp [testWebhook, hf]

/-- C1 (witness): the amended theorem applied to the one-subscription
store with an endpoint answering 204. -/
theorem test_webhook_single_attempt_success_iff_http_response_witness :
    (testWebhook demoStore "u1" "w1" "dflt" "ts" (fun _ => Except.ok 204) 3).isOk = true := by
  obtain ⟨r, req, heq, -, -, -⟩ :=
    (test_webhook_single_attempt_success_iff_http_response demoStore "u1" "w1" "dflt" "ts"
      (fun _ => Except.ok 204) 3).1 ⟨demoWebhook, by simp [demoStore], rfl, rfl⟩
  rw [heq]; rfl

/-- C2: when every attempt fails (HTTP status `>= 300` or a transport
error/timeout each time), the fire-path retry loop makes exactly 3
attempts, sleeping 1 second before attempt 2 and 3 seconds before
attempt 3 and never after the final attempt, and terminates in the
logged-exhaustion state (`delivered := false`) without raising. -/
theorem retry_exhaustion_three_attempts (oracle : Nat → Except String Nat)
    (h : ∀ k, k < maxRetries → attemptFailed (oracle k) = true) :
    deliverWebhook oracle = { attemptsMade := 3, sleeps := [1, 3], delivered := false } := by
  have h0 := deliverGoAux_step_fail oracle 2 0 [] (h 0 (by decide))
  have h1 := deliverGoAux_step_fail oracle 1 1 (nextSleeps 0 []) (h 1 (by decide))
  have h2 := deliverGoAux_step_fail oracle 0 2 (nextSleeps 1 (nextSleeps 0 [])) (h 2 (by decide))
  show deliverGoAux oracle (2 + 1) 0 [] = _
  rw [h0, h1, h2]
  simp [deliverGoAux, nextSleeps, maxRetries, retryDelays]

/-- C2 (witness): an endpoint that always answers 500 exhausts the loop
after 3 attempts with sleeps of 1s and 3s. -/
theorem retry_exhaustion_three_attempts_witness :
    (∀ k, k < maxRetries → attemptFailed (alwaysFail500 k) = true) ∧
    deliverWebhook alwaysFail500 =
      { attemptsMade := 3, sleeps := [1, 3], delivered := false } :=
  ⟨by decide, retry_exhaustion_three_attempts alwaysFail500 (by decide)⟩

/-- C3: the retry loop stops at the first attempt whose status is
`< 300`: for k in 1..3, if attempts 1..k-1 fail and attempt k succeeds
then exactly k attempts are made and the delivery succeeds. -/
theorem retry_early_stop (oracle : Nat → Except String Nat) (k : Nat)
    (hk1 : 1 ≤ k) (hk3 : k ≤ maxRetries)
    (hfail : ∀ i, i < k - 1 → attemptFailed (oracle i) = true)
    (hsucc : ∃ s, oracle (k - 1) = Except.ok s ∧ s < 300) :
    (deliverWebhook oracle).attemptsMade = k ∧ (deliverWebhook oracle).delivered = true := by
  obtain ⟨s, ho, hs⟩ := hsucc
  have hk3' : k ≤ 3 := hk3
  interval_cases k
  · norm_num at ho
    rw [show deliverWebhook oracle = deliverGoAux oracle (2 + 1) 0 [] from rfl,
      deliverGoAux_step_ok oracle 2 0 [] s ho hs]
    exact ⟨rfl, rfl⟩
  · norm_num at ho
    rw [show deliverWebhook oracle = deliverGoAux oracle (2 + 1) 0 [] from rfl,
      deliverGoAux_step_fail oracle 2 0 [] (hfail 0 (by norm_num)),
      deliverGoAux_step_ok oracle 1 1 (nextSleeps 0 []) s ho hs]
    exact ⟨rfl, rfl⟩
  · norm_num at ho
    rw [show deliverWebhook oracle = deliverGoAux oracle (2 + 1) 0 [] from rfl,
      deliverGoAux_step_fail oracle 2 0 [] (hfail 0 (by norm_num)),
      deliverGoAux_step_fail oracle 1 1 (nextSleeps 0 []) (hfail 1 (by norm_num)),
      deliverGoAux_step_ok oracle 0 2 (nextSleeps 1 (nextSleeps 0 [])) s ho hs]
    exact ⟨rfl, rfl⟩

/-- C3 (witness): an endpoint returning 200 on attempt 2 receives
exactly 2 attempts, never a 3rd. -/
theorem retry_early_stop_witness :
    (deliverWebhook succeedOnSecond).attemptsMade = 2 ∧
    (deliverWebhook succeedOnSecond).delivered = true :=
  retry_early_stop succeedOnSecond 2 (by decide) (by decide) (by decide)
    ⟨200, rfl, by decide⟩

/-- C4: sign/verify round-trip: for every payload and secret,
verifying the freshly generated signature token with the same secret
succeeds. -/
theorem sign_verify_roundtrip (payload : Json) (secret : String) :
    verifySignature payload (generateSignature payload secret) secret = true := by
  simp [verifySignature, generateSignature, compareDigest]

/-- C5 (counterexample): wrong-key rejection fails for the distinct
secrets `"a"` and `"a\x00"`: HMAC zero-pads the UTF-8 key to the 64-byte
block, so both secrets preprocess to the same key and `verify` accepts
the token signed under the other secret. -/
theorem wrong_key_rejection_counterexample :
    (("a" : String) ≠ "a\x00") ∧
    verifySignature cexPayload (generateSignature cexPayload "a") "a\x00" = true := by
  constructor
  · decide
  · have h : hmacSha256 (utf8Encode "a") (utf8Encode (dumps cexPayload)) =
        hmacSha256 (utf8Encode "a\x00") (utf8Encode (dumps cexPayload)) :=
      hmac_prep_congr _ _ _ (by decide)
    simp [verifySignature, generateSignature, compareDigest, h]

/-- C5 (amended): `verify(P, t, S)` accepts exactly the one token
`sign(P, S)`; hence `verify(P, sign(P,S1), S2)` is false precisely when
the two secrets produce different tokens.  Distinct secrets do not
always produce different tokens (see the counterexample: secrets equal
up to trailing NUL bytes inside the 64-byte HMAC block collide), so
`S1 ≠ S2` alone does not guarantee rejection. -/
theorem verify_accepts_exactly_expected_token (payload : Json) (tok secret : String) :
    verifySignature payload tok secret = true ↔ tok = generateSignature payload secret := by
  simp [verifySignature, generateSignature, compareDigest]

/-- C6: signing is deterministic and canonicalizing: the signature is a
pure function of payload and secret, and two payload objects holding
the same keys and values in any insertion order serialize to the same
canonical bytes and so carry identical signature tokens (taking the two
entry lists equal recovers plain repeated-call determinism). -/
theorem sign_deterministic_canonical (secret : String) (kvs1 kvs2 : List (String × Json))
    (hperm : kvs1.Perm kvs2) (hnd : (kvs1.map Prod.fst).Nodup) :
    dumps (Json.obj kvs1) = dumps (Json.obj kvs2) ∧
    generateSignature (Json.obj kvs1) secret = generateSignature (Json.obj kvs2) secret := by
  have hE : sortEntries (dumpsEntries kvs1) = sortEntries (dumpsEntries kvs2) := by
    apply sortEntries_eq_of_perm
    · rw [dumpsEntries_eq_map, dumpsEntries_eq_map]
      exact hperm.map _
    · rw [dumpsEntries_eq_map]
      simpa [List.map_map, Function.comp] using hnd
  have hd : dumps (Json.obj kvs1) = dumps (Json.obj kvs2) := by
    simp only [dumps]
    rw [hE]
  exact ⟨hd, by simp [generateSignature, hd]⟩

/-- C6 (witness): the two insertion orders of the object with fields
`a` and `b` serialize and sign identically. -/
theorem sign_deterministic_canonical_witness :
    dumps (Json.obj c6Left) = dumps (Json.obj c6Right) ∧
    generateSignature (Json.obj c6Left) "k" = generateSignature (Json.obj c6Right) "k" :=
  sign_deterministic_canonical "k" c6Left c6Right
    (List.Perm.swap ("b", Json.str "v") ("a", Json.num 1) []) (by decide)

/-- C7: the fire path delivers only to subscriptions that are owned by
the firing owner, active, and subscribed to the fired event type; when
no stored subscription satisfies all three conditions the fire performs
zero delivery attempts. -/
theorem fire_delivers_only_matching (store : List Webhook) (uid ev : String)
    (oracles : Webhook → Nat → Except String Nat) :
    (∀ w ∈ webhooksForEvent store uid ev,
        w.user_id = uid ∧ w.is_active = true ∧ ev ∈ w.events) ∧
    ((∀ w ∈ store, ¬(w.user_id = uid ∧ w.is_active = true ∧ ev ∈ w.events)) →
      triggerWebhook store uid ev oracles = []) := by
  constructor
  · intro w hw
    have hmem := List.mem_filter.mp hw
    have h2 := hmem.2
    simp at h2
    exact ⟨h2.1.1, h2.1.2, h2.2⟩
  · intro hnone
    have hfil : webhooksForEvent store uid ev = [] := by
      apply List.filter_eq_nil_iff.mpr
      intro w hw
      simpa using hnone w hw
    simp [triggerWebhook, hfil]

/-- C7 (witness): firing `resource.updated` against a store subscribed
only to `resource.created` performs zero delivery attempts. -/
theorem fire_delivers_only_matching_witness :
    triggerWebhook demoStore "u1" "resource.updated" (fun _ _ => Except.ok 200) = [] :=
  (fire_delivers_only_matching demoStore "u1" "resource.updated"
    (fun _ _ => Except.ok 200)).2 (by decide)

/-- C8: the fire path never raises to its caller: for every store and
every combination of per-subscription task outcomes — including tasks
that end in an exception — `trigger_webhook` (whose gather uses
`return_exceptions=True`) completes normally, and each subscription's
retry loop reaches a terminal state within `max_retries` attempts. -/
theorem fire_never_raises (store : List Webhook) (uid ev : String)
    (tasks : Webhook → Except String DeliveryTrace)
    (oracle : Nat → Except String Nat) :
    (triggerWebhookRun store uid ev tasks).isOk = true ∧
    (deliverWebhook oracle).attemptsMade ≤ maxRetries := by
  constructor
  · by_cases h : (webhooksForEvent store uid ev).isEmpty <;>
      simp [triggerWebhookRun, h, Except.isOk, Except.toBool]
  · have hle := deliverGoAux_attempts_le oracle maxRetries 0 []
    simpa [deliverWebhook] using hle

/-- C9: ownership-scoped delete: `delete(A, id)` returns true only if a
stored subscription has that id and owner A; when the id is absent or
every record with that id belongs to a different owner, the delete
returns false and leaves the store unchanged. -/
theorem delete_ownership_scoped (store : List Webhook) (uid wid : String) :
    ((deleteWebhook store uid wid).2 = true →
      ∃ w ∈ store, w.id = wid ∧ w.user_id = uid) ∧
    ((∀ w ∈ store, w.id = wid → w.user_id ≠ uid) →
      deleteWebhook store uid wid = (store, false)) := by
  constructor
  · intro h
    have hne : store.filter (fun w => w.id == wid && w.user_id == uid) ≠ [] := by
      intro hcon
      simp [deleteWebhook, hcon] at h
    obtain ⟨w, hw⟩ := List.exists_mem_of_ne_nil _ hne
    have hmem := List.mem_filter.mp hw
    exact ⟨w, hmem.1, by simpa using hmem.2⟩
  · intro h
    have h1 : store.filter (fun w => w.id == wid && w.user_id == uid) = [] := by
      apply List.filter_eq_nil_iff.mpr
      intro w hw hp
      have hand : w.id = wid ∧ w.user_id = uid := by simpa using hp
      exact h w hw hand.1 hand.2
    have h2 : store.filter (fun w => !(w.id == wid && w.user_id == uid)) = store := by
      apply List.filter_eq_self.mpr
      intro w hw
      cases hb : (w.id == wid && w.user_id == uid) with
      | false => rfl
      | true =>
        exfalso
        have hand : w.id = wid ∧ w.user_id = uid := by simpa using hb
        exact h w hw hand.1 hand.2
    show (store.filter (fun w => !(w.id == wid && w.user_id == uid)),
          !(store.filter (fun w => w.id == wid && w.user_id == uid)).isEmpty) = (store, false)
    rw [h1, h2]
    rfl

/-- C9 (witness): owner A deleting owner B's subscription gets false
and the store is untouched. -/
theorem delete_ownership_scoped_witness :
    deleteWebhook foreignStore "ownerA" "w9" = (foreignStore, false) :=
  (delete_ownership_scoped foreignStore "ownerA" "w9").2 (by decide)

/-- C10: every subscription created by `register_webhook` is created
with `is_active: True` and appended to the store with the existing rows
untouched, and the only other store mutation of this core, delete, only
removes whole records (the result is a sublist of the input), so no
operation of the core ever sets `is_active` to false. -/
theorem register_active_and_core_never_deactivates (store : List Webhook)
    (newId uid url : String) (events : List String) (secret : Option String)
    (store2 : List Webhook) (uid2 wid2 : String) :
    (registerWebhook store newId uid url events secret).2.is_active = true ∧
    (registerWebhook store newId uid url events secret).1 =
      store ++ [(registerWebhook store newId uid url events secret).2] ∧
    (deleteWebhook store2 uid2 wid2).1.Sublist store2 := by
  refine ⟨rfl, rfl, ?_⟩
  simp [deleteWebhook]

end Persimmon
